import Mathlib

/-
Verification of the Synlitics daily-upload state machine.

The definitions below are a shallow embedding of the client component in
src/app/layout.tsx (the second Home component, lines 446-1110) together with
the row types of src/unnamed/part_001.  External collaborators (auth, blob
store, structured store) are out of scope per the specification; each handler
therefore takes the outcome of its collaborator calls as an explicit argument
and additionally reports the list of persistence calls it issued.  Files are
modelled by their names (String); the structured store for daily_uploads is a
list of rows with the upsert-on-conflict semantics of section 6 of the spec,
with conflict target restaurant_name,upload_date as passed at line 680.
-/

namespace Synlitics

-- Row and state types, from src/unnamed/part_001.

inductive UploadSource
  | UberEats
  | DoorDash
  | Grubhub
  | Offline
deriving DecidableEq, Repr

inductive ProcessingStatus
  | pending
  | processing
  | completed
deriving DecidableEq, Repr

inductive ReadyKey
  | ubereats_ready
  | doordash_ready
  | grubhub_ready
  | offline_ready
deriving DecidableEq, Repr

structure Profile where
  id : String
  restaurant_name : String
  created_at : String
  updated_at : String
deriving DecidableEq, Repr

structure DailyUpload where
  id : Nat
  user_id : String
  restaurant_name : String
  upload_date : String
  ubereats_ready : Bool
  doordash_ready : Bool
  grubhub_ready : Bool
  offline_ready : Bool
  processing_status : ProcessingStatus
  created_at : String
  updated_at : String
deriving DecidableEq, Repr

def DailyUpload.getFlag (r : DailyUpload) : ReadyKey → Bool
  | .ubereats_ready => r.ubereats_ready
  | .doordash_ready => r.doordash_ready
  | .grubhub_ready => r.grubhub_ready
  | .offline_ready => r.offline_ready

structure UploadSlot where
  source : UploadSource
  label : String
  key : ReadyKey
  color : String
deriving DecidableEq, Repr

-- UPLOAD_SLOTS, src/app/layout.tsx lines 455-460.
def UPLOAD_SLOTS : List UploadSlot :=
  [ { source := .UberEats, label := "Uber Eats", key := .ubereats_ready,
      color := "from-green-500 to-green-600" },
    { source := .DoorDash, label := "DoorDash", key := .doordash_ready,
      color := "from-red-500 to-red-600" },
    { source := .Grubhub, label := "Grubhub", key := .grubhub_ready,
      color := "from-orange-400 to-orange-500" },
    { source := .Offline, label := "Offline Sales", key := .offline_ready,
      color := "from-slate-600 to-slate-700" } ]

-- The Record<UploadSource, File | null> local state, line 477.
structure UploadedFiles where
  UberEats : Option String
  DoorDash : Option String
  Grubhub : Option String
  Offline : Option String
deriving DecidableEq, Repr

def UploadedFiles.get (u : UploadedFiles) : UploadSource → Option String
  | .UberEats => u.UberEats
  | .DoorDash => u.DoorDash
  | .Grubhub => u.Grubhub
  | .Offline => u.Offline

def UploadedFiles.set (u : UploadedFiles) : UploadSource → Option String → UploadedFiles
  | .UberEats, f => { u with UberEats := f }
  | .DoorDash, f => { u with DoorDash := f }
  | .Grubhub, f => { u with Grubhub := f }
  | .Offline, f => { u with Offline := f }

def UploadedFiles.empty : UploadedFiles :=
  { UberEats := none, DoorDash := none, Grubhub := none, Offline := none }

inductive Stage
  | auth
  | onboarding
  | upload
  | processing
deriving DecidableEq, Repr

inductive AuthMode
  | login
  | signup
deriving DecidableEq, Repr

-- The component-local state of Home, lines 464-484.
structure HomeState where
  stage : Stage
  userId : Option String
  email : String
  password : String
  authMode : AuthMode
  loading : Bool
  initializing : Bool
  error : Option String
  restaurantName : String
  uploadedFiles : UploadedFiles
  dailyUpload : Option DailyUpload
  profile : Option Profile
deriving DecidableEq, Repr

def initialHomeState : HomeState :=
  { stage := .auth, userId := none, email := "", password := "",
    authMode := .login, loading := false, initializing := true, error := none,
    restaurantName := "", uploadedFiles := UploadedFiles.empty,
    dailyUpload := none, profile := none }

-- The daily_uploads table of the structured store collaborator.
structure Db where
  daily_uploads : List DailyUpload
deriving DecidableEq, Repr

-- The upsert payload built at lines 673-679: the four ready-flag columns are
-- optional because the object literal names exactly one of them ([slot.key]).
structure UpsertPayload where
  user_id : String
  restaurant_name : String
  upload_date : String
  ubereats_ready : Option Bool
  doordash_ready : Option Bool
  grubhub_ready : Option Bool
  offline_ready : Option Bool
  updated_at : String
deriving DecidableEq, Repr

def UpsertPayload.readyField (p : UpsertPayload) : ReadyKey → Option Bool
  | .ubereats_ready => p.ubereats_ready
  | .doordash_ready => p.doordash_ready
  | .grubhub_ready => p.grubhub_ready
  | .offline_ready => p.offline_ready

def matchesKey (rest date : String) (r : DailyUpload) : Bool :=
  r.restaurant_name == rest && r.upload_date == date

-- Conflict target restaurant_name,upload_date (line 680).
def conflictMatch (p : UpsertPayload) (r : DailyUpload) : Bool :=
  matchesKey p.restaurant_name p.upload_date r

/-- Upsert-on-conflict row update of the structured store collaborator
(spec section 6): every column present in the payload is written, absent
optional columns keep the stored value. -/
def applyPatch (p : UpsertPayload) (r : DailyUpload) : DailyUpload :=
  { r with
    user_id := p.user_id
    restaurant_name := p.restaurant_name
    upload_date := p.upload_date
    ubereats_ready := p.ubereats_ready.getD r.ubereats_ready
    doordash_ready := p.doordash_ready.getD r.doordash_ready
    grubhub_ready := p.grubhub_ready.getD r.grubhub_ready
    offline_ready := p.offline_ready.getD r.offline_ready
    updated_at := p.updated_at }

/-- Row created by an upsert that found no conflicting row: absent boolean
columns default to false, processing_status defaults to pending, and the store
stamps the creation time. -/
def insertRow (freshId : Nat) (p : UpsertPayload) : DailyUpload :=
  { id := freshId
    user_id := p.user_id
    restaurant_name := p.restaurant_name
    upload_date := p.upload_date
    ubereats_ready := p.ubereats_ready.getD false
    doordash_ready := p.doordash_ready.getD false
    grubhub_ready := p.grubhub_ready.getD false
    offline_ready := p.offline_ready.getD false
    processing_status := .pending
    created_at := p.updated_at
    updated_at := p.updated_at }

def patchIfMatch (p : UpsertPayload) (x : DailyUpload) : DailyUpload :=
  if conflictMatch p x then applyPatch p x else x

/-- upsert(table, row, conflictKeys) of the structured store collaborator
(spec section 6), returning the new table and the written row. -/
def dbUpsert (db : Db) (freshId : Nat) (p : UpsertPayload) : Db × DailyUpload :=
  match db.daily_uploads.find? (fun r => conflictMatch p r) with
  | some r =>
      (⟨db.daily_uploads.map (patchIfMatch p)⟩, applyPatch p r)
  | none =>
      (⟨db.daily_uploads ++ [insertRow freshId p]⟩, insertRow freshId p)

/-- update(table, id, patch) restricted to the processing_status column, the
only update the client issues (lines 705-708 and 717-720). -/
def dbUpdateStatus (db : Db) (rid : Nat) (st : ProcessingStatus) : Db :=
  ⟨db.daily_uploads.map (fun r => if r.id == rid then { r with processing_status := st } else r)⟩

-- Persistence calls a handler can issue, recorded for the frame conditions.
inductive DbCall
  | storageUpload (path : String)
  | upsertDaily (payload : UpsertPayload)
  | updateStatus (rid : Nat) (st : ProcessingStatus)
deriving DecidableEq, Repr

-- handleFileSelect, lines 638-640.
def handleFileSelect (source : UploadSource) (file : Option String) (s : HomeState) : HomeState :=
  { s with uploadedFiles := s.uploadedFiles.set source file }

def sourceName : UploadSource → String
  | .UberEats => "UberEats"
  | .DoorDash => "DoorDash"
  | .Grubhub => "Grubhub"
  | .Offline => "Offline"

-- The storage path template of line 654.
def pathFor (restaurantName today : String) (source : UploadSource) : String :=
  restaurantName ++ "/" ++ today ++ "/" ++ sourceName source ++ ".csv"

def keyPatch (slotKey target : ReadyKey) : Option Bool :=
  if slotKey = target then some true else none

-- The upsert payload object literal of lines 673-679; [slot.key]: true names
-- exactly one ready-flag column.
def mkUploadPayload (uid rest today nowIso : String) (slotKey : ReadyKey) : UpsertPayload :=
  { user_id := uid
    restaurant_name := rest
    upload_date := today
    ubereats_ready := keyPatch slotKey .ubereats_ready
    doordash_ready := keyPatch slotKey .doordash_ready
    grubhub_ready := keyPatch slotKey .grubhub_ready
    offline_ready := keyPatch slotKey .offline_ready
    updated_at := nowIso }

structure UploadResult where
  state : HomeState
  db : Db
  calls : List DbCall
deriving DecidableEq, Repr

/-- handleUploadSource, lines 642-696.  today and nowIso are the values of the
two Date expressions; freshId is the row id the store would assign on insert;
storageError and upsertError inject the collaborator outcomes. -/
def handleUploadSource (source : UploadSource) (today nowIso : String) (freshId : Nat)
    (storageError upsertError : Option String) (s : HomeState) (db : Db) : UploadResult :=
  match s.uploadedFiles.get source, s.userId, s.profile with
  | some _, some uid, some prof =>
    let path := pathFor prof.restaurant_name today source
    match storageError with
    | some msg => ⟨{ s with loading := false, error := some msg }, db, [.storageUpload path]⟩
    | none =>
      match UPLOAD_SLOTS.find? (fun sl => sl.source == source) with
      | none => ⟨{ s with loading := false, error := none }, db, [.storageUpload path]⟩
      | some slot =>
        let payload := mkUploadPayload uid prof.restaurant_name today nowIso slot.key
        match upsertError with
        | some msg =>
            ⟨{ s with loading := false, error := some msg }, db,
             [.storageUpload path, .upsertDaily payload]⟩
        | none =>
            let res := dbUpsert db freshId payload
            ⟨{ s with
                loading := false
                error := none
                dailyUpload := some res.2
                uploadedFiles := s.uploadedFiles.set source none },
             res.1, [.storageUpload path, .upsertDaily payload]⟩
  | _, _, _ => ⟨{ s with error := some "Missing file or profile information" }, db, []⟩

structure StartResult where
  state : HomeState
  db : Db
  calls : List DbCall
  scheduled : List Nat
deriving DecidableEq, Repr

/-- handleStartProcessing, lines 698-728.  scheduled lists the record ids
captured by the setTimeout of lines 716-722 (one per successful call). -/
def handleStartProcessing (updateError : Option String) (s : HomeState) (db : Db) : StartResult :=
  match s.dailyUpload, s.userId with
  | some du, some _ =>
    match updateError with
    | some msg =>
        ⟨{ s with loading := false, error := some msg }, db,
         [.updateStatus du.id .processing], []⟩
    | none =>
        ⟨{ s with
            loading := false
            error := none
            dailyUpload := some { du with processing_status := .processing }
            stage := .processing },
         dbUpdateStatus db du.id .processing,
         [.updateStatus du.id .processing], [du.id]⟩
  | _, _ => ⟨s, db, [], []⟩

structure TimerResult where
  state : HomeState
  db : Db
  calls : List DbCall
deriving DecidableEq, Repr

/-- The simulated-completion timer callback of lines 716-722: it writes
completed to the row id captured when the timer was scheduled, and sets the
processing_status of whatever local record is current at firing time. -/
def completionTimerFire (recordId : Nat) (s : HomeState) (db : Db) : TimerResult :=
  ⟨{ s with dailyUpload := s.dailyUpload.map (fun du => { du with processing_status := .completed }) },
   dbUpdateStatus db recordId .completed,
   [.updateStatus recordId .completed]⟩

-- handleLogout, lines 730-740.  It does not cancel pending timers.
def handleLogout (s : HomeState) : HomeState :=
  { s with
    userId := none
    stage := .auth
    uploadedFiles := UploadedFiles.empty
    dailyUpload := none
    profile := none
    email := ""
    password := ""
    restaurantName := "" }

-- readySourcesCount, lines 748-750.
def readySourcesCount (du : Option DailyUpload) : Nat :=
  match du with
  | some d =>
      ([d.ubereats_ready, d.doordash_ready, d.grubhub_ready, d.offline_ready].filter
        (fun b => b)).length
  | none => 0

-- The start-processing control of lines 935-948 renders only in the upload
-- stage and only when readySourcesCount > 0.
def startProcessingVisible (s : HomeState) : Bool :=
  s.stage == .upload && decide (0 < readySourcesCount s.dailyUpload)

/-- The user-level StartProcessing action: the click can only happen when the
control of lines 935-948 is rendered. -/
def uiStartProcessing (updateError : Option String) (s : HomeState) (db : Db) : StartResult :=
  if startProcessingVisible s then handleStartProcessing updateError s db
  else ⟨s, db, [], []⟩

/-- loadTodayUpload, lines 537-567, with the maybeSingle read outcome injected. -/
def loadTodayUpload (readResult : Except String (Option DailyUpload)) (s : HomeState) : HomeState :=
  match readResult with
  | .ok (some d) =>
      if d.processing_status = .processing ∨ d.processing_status = .completed then
        { s with dailyUpload := some d, stage := .processing }
      else
        { s with dailyUpload := some d, stage := .upload }
  | .ok none => { s with stage := .upload }
  | .error _ => { s with stage := .upload }

/-- loadProfile, lines 509-535: a read error or an absent row routes to the
onboarding stage without touching the error message; a present row is captured
and the flow continues into loadTodayUpload. -/
def loadProfile (profileResult : Except String (Option Profile))
    (todayRead : Except String (Option DailyUpload)) (s : HomeState) : HomeState :=
  match profileResult with
  | .error _ => { s with stage := .onboarding }
  | .ok none => { s with stage := .onboarding }
  | .ok (some p) =>
      loadTodayUpload todayRead { s with profile := some p, restaurantName := p.restaurant_name }

-- getSession outcomes for the init effect of lines 487-507.
inductive SessionResult
  | found (uid : String)
  | absent
  | failed (msg : String)
deriving DecidableEq, Repr

/-- The init effect of lines 487-507: a found session restores the profile,
an absent or failed session query stays on auth; in every case the finally
block clears the initializing flag. -/
def init (res : SessionResult) (profileResult : Except String (Option Profile))
    (todayRead : Except String (Option DailyUpload)) (s : HomeState) : HomeState :=
  match res with
  | .found uid =>
      let s1 := loadProfile profileResult todayRead { s with userId := some uid }
      { s1 with initializing := false }
  | .absent => { s with stage := .auth, initializing := false }
  | .failed _ => { s with stage := .auth, initializing := false }

/-- The successful login branch of handleAuth, lines 573-583 and 596-600. -/
def handleAuthLoginSuccess (uid : String) (profileResult : Except String (Option Profile))
    (todayRead : Except String (Option DailyUpload)) (s : HomeState) : HomeState :=
  let s1 := loadProfile profileResult todayRead { s with error := none, userId := some uid }
  { s1 with loading := false }

/-- Models the JavaScript string trim applied to the restaurant name at
lines 604 and 616-617, written structurally so it evaluates in the kernel. -/
def dropLeadingSpaces : List Char → List Char
  | [] => []
  | c :: cs => if c = ' ' ∨ c = '\t' ∨ c = '\n' ∨ c = '\r' then dropLeadingSpaces cs else c :: cs

def jsTrim (s : String) : String :=
  String.mk ((dropLeadingSpaces (dropLeadingSpaces s.data).reverse).reverse)

/-- handleOnboarding, lines 603-636, with the profiles upsert outcome injected. -/
def handleOnboarding (upsertProfileError : Option String) (nowIso : String)
    (todayRead : Except String (Option DailyUpload)) (s : HomeState) : HomeState :=
  match s.userId with
  | none => { s with error := some "Please enter a restaurant name" }
  | some uid =>
    if jsTrim s.restaurantName = "" then
      { s with error := some "Please enter a restaurant name" }
    else
      match upsertProfileError with
      | some msg => { s with loading := false, error := some msg }
      | none =>
        let p : Profile := { id := uid, restaurant_name := jsTrim s.restaurantName,
                             created_at := nowIso, updated_at := nowIso }
        let s1 := loadTodayUpload todayRead { s with error := none, profile := some p }
        { s1 with loading := false }

-- Derived view states of spec section 4.3, computed from the code: the stage
-- routing of loadTodayUpload plus the start-control visibility condition.
inductive DerivedState
  | NoRecordToday
  | PartiallyUploaded
  | AwaitingProcessingStart
  | Processing
  | Completed
deriving DecidableEq, Repr

def deriveState (du : Option DailyUpload) : DerivedState :=
  match du with
  | none => .NoRecordToday
  | some d =>
    match d.processing_status with
    | .processing => .Processing
    | .completed => .Completed
    | .pending =>
        if 0 < readySourcesCount (some d) then .AwaitingProcessingStart else .PartiallyUploaded

/-- Modelled from the spec: the five derivation rules of section 4.3 applied
in the written order, rule 2 (at least one ready flag is false) before rule 3
(at least one ready flag is true).  Kept separate from deriveState, which is
read off the code, so the two can be compared. -/
def specOrderDeriveState (du : Option DailyUpload) : DerivedState :=
  match du with
  | none => .NoRecordToday
  | some d =>
    if d.processing_status = .pending ∧
        (d.ubereats_ready = false ∨ d.doordash_ready = false ∨
         d.grubhub_ready = false ∨ d.offline_ready = false) then
      .PartiallyUploaded
    else if d.processing_status = .pending ∧
        (d.ubereats_ready = true ∨ d.doordash_ready = true ∨
         d.grubhub_ready = true ∨ d.offline_ready = true) then
      .AwaitingProcessingStart
    else if d.processing_status = .processing then .Processing
    else .Completed

inductive View
  | loadingIndicator
  | stageView (st : Stage)
deriving DecidableEq, Repr

-- Lines 753-759: while initializing only the neutral loading indicator is
-- rendered; afterwards the current stage is.
def render (s : HomeState) : View :=
  if s.initializing then .loadingIndicator else .stageView s.stage

-- Order of the processing lifecycle, for the monotonicity statements.
def statusRank : ProcessingStatus → Nat
  | .pending => 0
  | .processing => 1
  | .completed => 2

def flagsLe (a b : DailyUpload) : Prop :=
  (a.ubereats_ready = true → b.ubereats_ready = true) ∧
  (a.doordash_ready = true → b.doordash_ready = true) ∧
  (a.grubhub_ready = true → b.grubhub_ready = true) ∧
  (a.offline_ready = true → b.offline_ready = true)

def rowMono (a b : DailyUpload) : Prop :=
  flagsLe a b ∧ statusRank a.processing_status ≤ statusRank b.processing_status

def dbMono (db dbAfter : Db) : Prop :=
  ∀ (i : Nat) (old : DailyUpload), db.daily_uploads[i]? = some old →
    ∃ new, dbAfter.daily_uploads[i]? = some new ∧ rowMono old new

def localMono (s sAfter : HomeState) : Prop :=
  ∀ du duAfter, s.dailyUpload = some du → sAfter.dailyUpload = some duAfter → rowMono du duAfter

def countMatching (db : Db) (rest date : String) : Nat :=
  (db.daily_uploads.filter (fun r => matchesKey rest date r)).length

def keyOf : UploadSource → ReadyKey
  | .UberEats => .ubereats_ready
  | .DoorDash => .doordash_ready
  | .Grubhub => .grubhub_ready
  | .Offline => .offline_ready

-- Concrete fixtures used by witnesses and counterexamples.

def recAllFalse : DailyUpload :=
  { id := 11, user_id := "userA", restaurant_name := "Alice Diner",
    upload_date := "2026-10-12", ubereats_ready := false, doordash_ready := false,
    grubhub_ready := false, offline_ready := false, processing_status := .pending,
    created_at := "t0", updated_at := "t0" }

def recDoorDashOnly : DailyUpload :=
  { recAllFalse with id := 12, doordash_ready := true }

def recCompleted : DailyUpload :=
  { recAllFalse with id := 13, doordash_ready := true, processing_status := .completed }

def profAlice : Profile :=
  { id := "userA", restaurant_name := "Alice Diner", created_at := "t0", updated_at := "t0" }

def baseState : HomeState :=
  { initialHomeState with
    stage := .upload
    userId := some "userA"
    initializing := false
    profile := some profAlice }

-- Claim C1

/-- Claim C1, amended: when all four ready flags of the current record are
false, the start-processing control of lines 935-948 is not rendered
(readySourcesCount is zero), so the user-level StartProcessing action cannot
happen: it issues no persistence call and changes neither the local state nor
the store.  The handler itself guards only a missing record or user, which is
what the counterexample exhibits. -/
theorem claim_C1_start_rejected_amended :
    ∀ (updateError : Option String) (s : HomeState) (db : Db) (du : DailyUpload),
      s.dailyUpload = some du →
      du.ubereats_ready = false → du.doordash_ready = false →
      du.grubhub_ready = false → du.offline_ready = false →
      startProcessingVisible s = false ∧
      uiStartProcessing updateError s db = ⟨s, db, [], []⟩ := by
  intro updateError s db du hdu h1 h2 h3 h4
  have hc : readySourcesCount s.dailyUpload = 0 := by
    rw [hdu]
    simp [readySourcesCount, h1, h2, h3, h4]
  have hv : startProcessingVisible s = false := by
    simp [startProcessingVisible, hc]
  exact ⟨hv, by simp [uiStartProcessing, hv]⟩

/-- Claim C1 witness: the amended theorem evaluated at a concrete all-false
record. -/
theorem claim_C1_witness :
    startProcessingVisible { baseState with dailyUpload := some recAllFalse } = false ∧
    uiStartProcessing none { baseState with dailyUpload := some recAllFalse } ⟨[recAllFalse]⟩ =
      ⟨{ baseState with dailyUpload := some recAllFalse }, ⟨[recAllFalse]⟩, [], []⟩ :=
  claim_C1_start_rejected_amended none _ _ recAllFalse rfl rfl rfl rfl rfl

/-- Claim C1 counterexample: handleStartProcessing itself does not check the
ready flags.  Invoked with a record whose four flags are all false (and a
signed-in user), it does call the persistence collaborator and does change
both the local record and the stored row, so the claim as stated about the
handler is false. -/
theorem claim_C1_counterexample :
    (handleStartProcessing none { baseState with dailyUpload := some recAllFalse }
        ⟨[recAllFalse]⟩).calls = [DbCall.updateStatus 11 .processing] ∧
    (handleStartProcessing none { baseState with dailyUpload := some recAllFalse }
        ⟨[recAllFalse]⟩).state.dailyUpload =
      some { recAllFalse with processing_status := .processing } ∧
    (handleStartProcessing none { baseState with dailyUpload := some recAllFalse }
        ⟨[recAllFalse]⟩).db ≠ (⟨[recAllFalse]⟩ : Db) := by
  decide

-- Claim C4

/-- Claim C4 counterexample: a record with processing_status pending and
exactly one ready flag true has at least one ready flag false, yet the code
derives AwaitingProcessingStart for it, not PartiallyUploaded; the rules of
the spec applied in their written order derive PartiallyUploaded.  So the
claim, which gives rule 2 (at least one flag false) priority, is false on the
code. -/
theorem claim_C4_counterexample :
    recDoorDashOnly.processing_status = .pending ∧
    recDoorDashOnly.ubereats_ready = false ∧
    deriveState (some recDoorDashOnly) = .AwaitingProcessingStart ∧
    deriveState (some recDoorDashOnly) ≠ .PartiallyUploaded ∧
    specOrderDeriveState (some recDoorDashOnly) = .PartiallyUploaded := by
  decide

/-- Claim C4, amended: the derived state is a pure function of the record;
a pending record is PartiallyUploaded exactly when all four ready flags are
false, and AwaitingProcessingStart with a visible start action as soon as at
least one — not necessarily all four — flags are true (the count condition of
line 935, giving the at-least-one-true rule priority over the
at-least-one-false rule on their overlap). -/
theorem claim_C4_derived_state_amended :
    (∀ r : DailyUpload, r.processing_status = .pending →
        r.ubereats_ready = false → r.doordash_ready = false →
        r.grubhub_ready = false → r.offline_ready = false →
        deriveState (some r) = .PartiallyUploaded) ∧
    (∀ r : DailyUpload, r.processing_status = .pending →
        0 < readySourcesCount (some r) →
        deriveState (some r) = .AwaitingProcessingStart) ∧
    (∀ (s : HomeState) (r : DailyUpload), s.stage = .upload → s.dailyUpload = some r →
        0 < readySourcesCount (some r) → startProcessingVisible s = true) := by
  refine ⟨?_, ?_, ?_⟩
  · intro r h h1 h2 h3 h4
    simp [deriveState, h, readySourcesCount, h1, h2, h3, h4]
  · intro r h hc
    simp only [deriveState, h]
    rw [if_pos hc]
  · intro s r hstage hdu hc
    simp [startProcessingVisible, hstage, hdu, hc]

/-- Claim C4 witness: the amended theorem evaluated at concrete records. -/
theorem claim_C4_witness :
    deriveState (some recAllFalse) = .PartiallyUploaded ∧
    deriveState (some recDoorDashOnly) = .AwaitingProcessingStart ∧
    startProcessingVisible { baseState with dailyUpload := some recDoorDashOnly } = true :=
  ⟨claim_C4_derived_state_amended.1 recAllFalse rfl rfl rfl rfl rfl,
   claim_C4_derived_state_amended.2.1 recDoorDashOnly rfl (by decide),
   claim_C4_derived_state_amended.2.2 _ recDoorDashOnly rfl rfl (by decide)⟩

-- Claim C7

/-- Claim C7: whenever the profile read of an authenticated identity returns
no row or an error, loadProfile routes to the onboarding stage, leaves the
user-visible error message untouched, and the init session-restore flow ends
on the onboarding stage as well. -/
theorem claim_C7_profile_onboarding :
    ∀ (profileResult : Except String (Option Profile))
      (todayRead : Except String (Option DailyUpload)) (s : HomeState),
      (∀ p, profileResult ≠ .ok (some p)) →
      (loadProfile profileResult todayRead s).stage = .onboarding ∧
      (loadProfile profileResult todayRead s).error = s.error ∧
      (∀ uid, (init (.found uid) profileResult todayRead s).stage = .onboarding) := by
  intro profileResult todayRead s h
  match profileResult with
  | .error msg => exact ⟨rfl, rfl, fun uid => rfl⟩
  | .ok none => exact ⟨rfl, rfl, fun uid => rfl⟩
  | .ok (some p) => exact absurd rfl (h p)

/-- Claim C7 witness: the theorem evaluated at a failing profile read. -/
theorem claim_C7_witness :
    (loadProfile (.error "read failed") (.ok none) baseState).stage = .onboarding ∧
    (loadProfile (.error "read failed") (.ok none) baseState).error = baseState.error ∧
    (∀ uid, (init (.found uid) (.error "read failed") (.ok none) baseState).stage = .onboarding) :=
  claim_C7_profile_onboarding (.error "read failed") (.ok none) baseState
    (fun _p h => Except.noConfusion h)

-- Claim C3: the logout-then-new-session trace of the spec scenario.

-- Session A has uploaded DoorDash and starts processing: record 12, and a
-- completion timer capturing id 12 is scheduled.
def traceStartA : StartResult :=
  handleStartProcessing none { baseState with dailyUpload := some recDoorDashOnly }
    ⟨[recDoorDashOnly]⟩

-- Logout does not cancel the timer.
def traceAfterLogout : HomeState := handleLogout traceStartA.state

-- A different identity logs in the same day, has no profile yet, onboards as
-- a new restaurant, and uploads a DoorDash file: record 40, status pending.
def traceAfterLoginB : HomeState :=
  handleAuthLoginSuccess "userB" (.ok none) (.ok none) traceAfterLogout

def traceAfterOnboardB : HomeState :=
  handleOnboarding none "t2" (.ok none) { traceAfterLoginB with restaurantName := "Bistro B" }

def traceAfterSelectB : HomeState :=
  handleFileSelect .DoorDash (some "doordash.csv") traceAfterOnboardB

def traceUploadB : UploadResult :=
  handleUploadSource .DoorDash "2026-10-12" "t3" 40 none none traceAfterSelectB traceStartA.db

-- The stale timer of session A now fires.
def traceStaleFire : TimerResult :=
  completionTimerFire 12 traceUploadB.state traceUploadB.db

/-- Claim C3: evaluation of the code at the failing scenario.  The completion
timer scheduled by session A StartProcessing (capturing record id 12) fires
after logout and a fresh login: it writes completed to the old row 12 and —
because its local write is not guarded — flips the new session's local
daily-upload record 40 from pending to completed, mutating a record that is
no longer the one the timer was scheduled for.  The code therefore violates
the claim, whose guard the spec itself marks as a defect inherited from the
source. -/
theorem claim_C3_stale_timer :
    traceStartA.scheduled = [12] ∧
    traceUploadB.state.dailyUpload.map (fun r => (r.id, r.processing_status)) =
      some (40, .pending) ∧
    traceStaleFire.state.dailyUpload.map (fun r => (r.id, r.processing_status)) =
      some (40, .completed) ∧
    traceStaleFire.calls = [DbCall.updateStatus 12 .completed] := by
  decide

-- Claim C2: helper lemmas for the monotonicity statements.

theorem statusRank_le_two (st : ProcessingStatus) : statusRank st ≤ 2 := by
  cases st <;> simp [statusRank]

theorem rowMono_refl (r : DailyUpload) : rowMono r r :=
  ⟨⟨fun h => h, fun h => h, fun h => h, fun h => h⟩, le_refl _⟩

theorem dbMono_refl (db : Db) : dbMono db db :=
  fun _i old h => ⟨old, h, rowMono_refl old⟩

theorem dbMono_map_mem (db : Db) (f : DailyUpload → DailyUpload)
    (hf : ∀ r ∈ db.daily_uploads, rowMono r (f r)) :
    dbMono db ⟨db.daily_uploads.map f⟩ := by
  intro i old h
  refine ⟨f old, ?_, hf old (List.getElem?_mem h)⟩
  rw [List.getElem?_map, h]
  rfl

theorem dbMono_append (db : Db) (l : List DailyUpload) :
    dbMono db ⟨db.daily_uploads ++ l⟩ := by
  intro i old h
  have hi : i < db.daily_uploads.length := (List.getElem?_eq_some.mp h).1
  exact ⟨old, by rw [List.getElem?_append_left hi]; exact h, rowMono_refl old⟩

theorem keyPatch_cases (k t : ReadyKey) : keyPatch k t = some true ∨ keyPatch k t = none := by
  unfold keyPatch
  split
  · exact Or.inl rfl
  · exact Or.inr rfl

theorem rowMono_patch (p : UpsertPayload) (r : DailyUpload)
    (h1 : p.ubereats_ready = some true ∨ p.ubereats_ready = none)
    (h2 : p.doordash_ready = some true ∨ p.doordash_ready = none)
    (h3 : p.grubhub_ready = some true ∨ p.grubhub_ready = none)
    (h4 : p.offline_ready = some true ∨ p.offline_ready = none) :
    rowMono r (applyPatch p r) := by
  refine ⟨⟨?_, ?_, ?_, ?_⟩, ?_⟩
  · rcases h1 with h | h <;> simp [applyPatch, h]
  · rcases h2 with h | h <;> simp [applyPatch, h]
  · rcases h3 with h | h <;> simp [applyPatch, h]
  · rcases h4 with h | h <;> simp [applyPatch, h]
  · simp [applyPatch]

/-- Claim C2, amended: handleUploadSource and the simulated-completion timer
never move a persisted record backward — they never lower processing_status
and never reset a ready flag — and the timer also never moves the local
record's status backward; handleStartProcessing has the same property
provided the current record's status is pending (the only situation in which
the spec permits the action), but its code does not itself check the status:
invoked on a completed record it writes processing, which is the
counterexample to the claim as stated. -/
theorem claim_C2_monotonic_amended :
    (∀ source today nowIso freshId sErr uErr (s : HomeState) (db : Db),
        dbMono db (handleUploadSource source today nowIso freshId sErr uErr s db).db) ∧
    (∀ rid (s : HomeState) (db : Db),
        dbMono db (completionTimerFire rid s db).db ∧
        localMono s (completionTimerFire rid s db).state) ∧
    (∀ uErr (s : HomeState) (db : Db) (du : DailyUpload),
        s.dailyUpload = some du → du.processing_status = .pending →
        (∀ r ∈ db.daily_uploads, r.id = du.id → r.processing_status ≠ .completed) →
        dbMono db (handleStartProcessing uErr s db).db ∧
        localMono s (handleStartProcessing uErr s db).state) := by
  refine ⟨?_, ?_, ?_⟩
  · intro source today nowIso freshId sErr uErr s db
    unfold handleUploadSource
    repeat' split
    any_goals exact dbMono_refl db
    dsimp only
    unfold dbUpsert
    split
    · apply dbMono_map_mem
      intro r _hr
      unfold patchIfMatch
      split
      · exact rowMono_patch _ r (keyPatch_cases _ _) (keyPatch_cases _ _)
          (keyPatch_cases _ _) (keyPatch_cases _ _)
      · exact rowMono_refl r
    · exact dbMono_append db _
  · intro rid s db
    constructor
    · apply dbMono_map_mem
      intro r _hr
      split
      · exact ⟨⟨fun h => h, fun h => h, fun h => h, fun h => h⟩, statusRank_le_two _⟩
      · exact rowMono_refl r
    · intro du duAfter h h2
      simp only [completionTimerFire, h, Option.map_some] at h2
      cases h2
      exact ⟨⟨fun h => h, fun h => h, fun h => h, fun h => h⟩, statusRank_le_two _⟩
  · intro uErr s db du hdu hpending hdb
    unfold handleStartProcessing
    rw [hdu]
    cases hu : s.userId with
    | none =>
      refine ⟨dbMono_refl db, ?_⟩
      intro du0 duAfter h h2
      rw [h] at h2
      cases h2
      exact rowMono_refl _
    | some uid =>
      cases uErr with
      | some msg =>
        refine ⟨dbMono_refl db, ?_⟩
        intro du0 duAfter h h2
        rw [hdu] at h
        cases h
        cases h2
        exact rowMono_refl _
      | none =>
        constructor
        · apply dbMono_map_mem
          intro r hr
          split
          · next hid =>
            refine ⟨⟨fun h => h, fun h => h, fun h => h, fun h => h⟩, ?_⟩
            have : r.processing_status ≠ .completed := hdb r hr (eq_of_beq hid)
            cases hst : r.processing_status
            · simp [statusRank]
            · simp [statusRank]
            · exact absurd hst this
          · exact rowMono_refl r
        · intro du0 duAfter h h2
          dsimp only at h2
          rw [hdu] at h
          cases h
          cases h2
          refine ⟨⟨fun h => h, fun h => h, fun h => h, fun h => h⟩, ?_⟩
          rw [hpending]
          simp [statusRank]

/-- Claim C2 witness: the amended theorem evaluated at concrete operations on
a concrete store. -/
theorem claim_C2_witness :
    dbMono ⟨[recDoorDashOnly]⟩
      (handleUploadSource .UberEats "2026-10-12" "t1" 21 none none
        (handleFileSelect .UberEats (some "ue.csv")
          { baseState with dailyUpload := some recDoorDashOnly })
        ⟨[recDoorDashOnly]⟩).db ∧
    (dbMono ⟨[recDoorDashOnly]⟩
        (completionTimerFire 12 { baseState with dailyUpload := some recDoorDashOnly }
          ⟨[recDoorDashOnly]⟩).db ∧
      localMono { baseState with dailyUpload := some recDoorDashOnly }
        (completionTimerFire 12 { baseState with dailyUpload := some recDoorDashOnly }
          ⟨[recDoorDashOnly]⟩).state) ∧
    (dbMono ⟨[recDoorDashOnly]⟩
        (handleStartProcessing none { baseState with dailyUpload := some recDoorDashOnly }
          ⟨[recDoorDashOnly]⟩).db ∧
      localMono { baseState with dailyUpload := some recDoorDashOnly }
        (handleStartProcessing none { baseState with dailyUpload := some recDoorDashOnly }
          ⟨[recDoorDashOnly]⟩).state) :=
  ⟨claim_C2_monotonic_amended.1 .UberEats "2026-10-12" "t1" 21 none none _ _,
   claim_C2_monotonic_amended.2.1 12 _ _,
   claim_C2_monotonic_amended.2.2 none _ _ recDoorDashOnly rfl rfl (by decide)⟩

/-- Claim C2 counterexample: handleStartProcessing invoked on a record whose
processing_status is completed moves it back to processing, both in the local
state and in the store, so the claim as stated over every record and
operation is false. -/
theorem claim_C2_counterexample :
    recCompleted.processing_status = .completed ∧
    (handleStartProcessing none { baseState with dailyUpload := some recCompleted }
        ⟨[recCompleted]⟩).state.dailyUpload =
      some { recCompleted with processing_status := .processing } ∧
    (handleStartProcessing none { baseState with dailyUpload := some recCompleted }
        ⟨[recCompleted]⟩).db =
      ⟨[{ recCompleted with processing_status := .processing }]⟩ ∧
    statusRank .processing < statusRank .completed := by
  decide

-- Helpers shared by claims C6, C9, C10 and C5.

theorem find_slot_key (source : UploadSource) :
    ∃ slot, UPLOAD_SLOTS.find? (fun sl => sl.source == source) = some slot ∧
      slot.key = keyOf source ∧ slot.source = source := by
  cases source <;> exact ⟨_, rfl, rfl, rfl⟩

theorem mkUploadPayload_readyField_self (uid rest today nowIso : String) (k : ReadyKey) :
    (mkUploadPayload uid rest today nowIso k).readyField k = some true := by
  cases k <;> rfl

theorem mkUploadPayload_readyField_other (uid rest today nowIso : String) (k t : ReadyKey)
    (h : t ≠ k) : (mkUploadPayload uid rest today nowIso k).readyField t = none := by
  cases k <;> cases t <;> first | exact absurd rfl h | rfl

theorem applyPatch_getFlag_other (p : UpsertPayload) (t : ReadyKey) (r : DailyUpload)
    (h : p.readyField t = none) : (applyPatch p r).getFlag t = r.getFlag t := by
  cases t <;> simp_all [UpsertPayload.readyField, applyPatch, DailyUpload.getFlag]

theorem uploadedFiles_set_get_self (u : UploadedFiles) (src : UploadSource) (v : Option String) :
    (u.set src v).get src = v := by
  cases src <;> rfl

theorem uploadedFiles_set_get_other (u : UploadedFiles) (src t : UploadSource) (v : Option String)
    (h : t ≠ src) : (u.set src v).get t = u.get t := by
  cases src <;> cases t <;> first | exact absurd rfl h | rfl

-- Claim C6

/-- Claim C6: when the blob write fails, or the blob write succeeds and the
record upsert fails, handleUploadSource leaves the local daily-upload state
(record, selected files, stage) and the store unchanged, surfaces the
collaborator's message as the error, and issues each collaborator call at
most once (no retry): the call trace is exactly the one failed attempt. -/
theorem claim_C6_upload_atomic :
    ∀ source today nowIso freshId (sErr uErr : Option String) (s : HomeState) (db : Db)
      (f uid msg : String) (prof : Profile),
      s.uploadedFiles.get source = some f → s.userId = some uid → s.profile = some prof →
      ((sErr = some msg →
          (handleUploadSource source today nowIso freshId sErr uErr s db).state.dailyUpload =
            s.dailyUpload ∧
          (handleUploadSource source today nowIso freshId sErr uErr s db).state.uploadedFiles =
            s.uploadedFiles ∧
          (handleUploadSource source today nowIso freshId sErr uErr s db).state.stage = s.stage ∧
          (handleUploadSource source today nowIso freshId sErr uErr s db).db = db ∧
          (handleUploadSource source today nowIso freshId sErr uErr s db).state.error = some msg ∧
          (handleUploadSource source today nowIso freshId sErr uErr s db).calls =
            [DbCall.storageUpload (pathFor prof.restaurant_name today source)]) ∧
       (sErr = none → uErr = some msg →
          (handleUploadSource source today nowIso freshId sErr uErr s db).state.dailyUpload =
            s.dailyUpload ∧
          (handleUploadSource source today nowIso freshId sErr uErr s db).state.uploadedFiles =
            s.uploadedFiles ∧
          (handleUploadSource source today nowIso freshId sErr uErr s db).state.stage = s.stage ∧
          (handleUploadSource source today nowIso freshId sErr uErr s db).db = db ∧
          (handleUploadSource source today nowIso freshId sErr uErr s db).state.error = some msg ∧
          (handleUploadSource source today nowIso freshId sErr uErr s db).calls =
            [DbCall.storageUpload (pathFor prof.restaurant_name today source),
             DbCall.upsertDaily
               (mkUploadPayload uid prof.restaurant_name today nowIso (keyOf source))])) := by
  intro source today nowIso freshId sErr uErr s db f uid msg prof hf hu hp
  constructor
  · intro hse
    subst hse
    simp [handleUploadSource, hf, hu, hp]
  · intro hse hue
    subst hse
    subst hue
    obtain ⟨slot, hfind, hkey, _⟩ := find_slot_key source
    simp [handleUploadSource, hf, hu, hp, hfind, hkey]

/-- Claim C6 witness: the theorem evaluated at a blob-write failure and at an
upsert failure on concrete state. -/
theorem claim_C6_witness :
    ((some "disk full" = some "disk full" →
        (handleUploadSource .DoorDash "2026-10-12" "t1" 21 (some "disk full") none
            (handleFileSelect .DoorDash (some "dd.csv") baseState) ⟨[]⟩).state.dailyUpload =
          (handleFileSelect .DoorDash (some "dd.csv") baseState).dailyUpload ∧
        (handleUploadSource .DoorDash "2026-10-12" "t1" 21 (some "disk full") none
            (handleFileSelect .DoorDash (some "dd.csv") baseState) ⟨[]⟩).state.uploadedFiles =
          (handleFileSelect .DoorDash (some "dd.csv") baseState).uploadedFiles ∧
        (handleUploadSource .DoorDash "2026-10-12" "t1" 21 (some "disk full") none
            (handleFileSelect .DoorDash (some "dd.csv") baseState) ⟨[]⟩).state.stage =
          (handleFileSelect .DoorDash (some "dd.csv") baseState).stage ∧
        (handleUploadSource .DoorDash "2026-10-12" "t1" 21 (some "disk full") none
            (handleFileSelect .DoorDash (some "dd.csv") baseState) ⟨[]⟩).db = ⟨[]⟩ ∧
        (handleUploadSource .DoorDash "2026-10-12" "t1" 21 (some "disk full") none
            (handleFileSelect .DoorDash (some "dd.csv") baseState) ⟨[]⟩).state.error =
          some "disk full" ∧
        (handleUploadSource .DoorDash "2026-10-12" "t1" 21 (some "disk full") none
            (handleFileSelect .DoorDash (some "dd.csv") baseState) ⟨[]⟩).calls =
          [DbCall.storageUpload (pathFor profAlice.restaurant_name "2026-10-12" .DoorDash)]) ∧
     (some "disk full" = none → none = some "disk full" →
        (handleUploadSource .DoorDash "2026-10-12" "t1" 21 (some "disk full") none
            (handleFileSelect .DoorDash (some "dd.csv") baseState) ⟨[]⟩).state.dailyUpload =
          (handleFileSelect .DoorDash (some "dd.csv") baseState).dailyUpload ∧
        (handleUploadSource .DoorDash "2026-10-12" "t1" 21 (some "disk full") none
            (handleFileSelect .DoorDash (some "dd.csv") baseState) ⟨[]⟩).state.uploadedFiles =
          (handleFileSelect .DoorDash (some "dd.csv") baseState).uploadedFiles ∧
        (handleUploadSource .DoorDash "2026-10-12" "t1" 21 (some "disk full") none
            (handleFileSelect .DoorDash (some "dd.csv") baseState) ⟨[]⟩).state.stage =
          (handleFileSelect .DoorDash (some "dd.csv") baseState).stage ∧
        (handleUploadSource .DoorDash "2026-10-12" "t1" 21 (some "disk full") none
            (handleFileSelect .DoorDash (some "dd.csv") baseState) ⟨[]⟩).db = ⟨[]⟩ ∧
        (handleUploadSource .DoorDash "2026-10-12" "t1" 21 (some "disk full") none
            (handleFileSelect .DoorDash (some "dd.csv") baseState) ⟨[]⟩).state.error =
          some "disk full" ∧
        (handleUploadSource .DoorDash "2026-10-12" "t1" 21 (some "disk full") none
            (handleFileSelect .DoorDash (some "dd.csv") baseState) ⟨[]⟩).calls =
          [DbCall.storageUpload (pathFor profAlice.restaurant_name "2026-10-12" .DoorDash),
           DbCall.upsertDaily
             (mkUploadPayload "userA" profAlice.restaurant_name "2026-10-12" "t1"
               (keyOf .DoorDash))])) :=
  claim_C6_upload_atomic .DoorDash "2026-10-12" "t1" 21 (some "disk full") none
    (handleFileSelect .DoorDash (some "dd.csv") baseState) ⟨[]⟩ "dd.csv" "userA" "disk full"
    profAlice rfl rfl rfl

-- Claim C9

/-- Claim C9: every upsert payload handleUploadSource sends to the
daily_uploads table names the ready-flag column of the uploaded source, set
to true, and none of the other three ready-flag columns; consequently the
upsert patch leaves the other three persisted flags unchanged. -/
theorem claim_C9_patch_single_flag :
    ∀ source today nowIso freshId (sErr uErr : Option String) (s : HomeState) (db : Db)
      (p : UpsertPayload),
      DbCall.upsertDaily p ∈
        (handleUploadSource source today nowIso freshId sErr uErr s db).calls →
      p.readyField (keyOf source) = some true ∧
      (∀ t, t ≠ keyOf source → p.readyField t = none) ∧
      (∀ t (r : DailyUpload), t ≠ keyOf source →
        (applyPatch p r).getFlag t = r.getFlag t) := by
  intro source today nowIso freshId sErr uErr s db p hmem
  obtain ⟨slot, hfind, hkey, _⟩ := find_slot_key source
  unfold handleUploadSource at hmem
  rw [hfind] at hmem
  repeat' first
    | (split at hmem)
    | (dsimp only at hmem)
  any_goals simp at hmem
  all_goals
    subst hmem
    injections
    subst_vars
    rw [hkey]
    exact ⟨mkUploadPayload_readyField_self _ _ _ _ _,
      fun t ht => mkUploadPayload_readyField_other _ _ _ _ _ _ ht,
      fun t r ht => applyPatch_getFlag_other _ _ r
        (mkUploadPayload_readyField_other _ _ _ _ _ _ ht)⟩

/-- Claim C9 witness: the theorem evaluated at a concrete successful DoorDash
upload. -/
theorem claim_C9_witness :
    (mkUploadPayload "userA" "Alice Diner" "2026-10-12" "t1" .doordash_ready).readyField
        (keyOf .DoorDash) = some true ∧
    (∀ t, t ≠ keyOf .DoorDash →
      (mkUploadPayload "userA" "Alice Diner" "2026-10-12" "t1" .doordash_ready).readyField t =
        none) ∧
    (∀ t (r : DailyUpload), t ≠ keyOf .DoorDash →
      (applyPatch (mkUploadPayload "userA" "Alice Diner" "2026-10-12" "t1" .doordash_ready)
          r).getFlag t = r.getFlag t) :=
  claim_C9_patch_single_flag .DoorDash "2026-10-12" "t1" 21 none none
    (handleFileSelect .DoorDash (some "dd.csv") baseState) ⟨[]⟩
    (mkUploadPayload "userA" "Alice Diner" "2026-10-12" "t1" .doordash_ready) (by decide)

-- Claim C10

/-- Claim C10: a successful handleUploadSource call clears the locally
selected file of the uploaded source, leaves the selected files of the other
three sources untouched, and has merged the upserted row into the local
record. -/
theorem claim_C10_clear_file :
    ∀ source today nowIso freshId (s : HomeState) (db : Db) (f uid : String) (prof : Profile),
      s.uploadedFiles.get source = some f → s.userId = some uid → s.profile = some prof →
      (handleUploadSource source today nowIso freshId none none s db).state.uploadedFiles.get
          source = none ∧
      (∀ t, t ≠ source →
        (handleUploadSource source today nowIso freshId none none s db).state.uploadedFiles.get
            t = s.uploadedFiles.get t) ∧
      (handleUploadSource source today nowIso freshId none none s db).state.dailyUpload =
        some (dbUpsert db freshId
          (mkUploadPayload uid prof.restaurant_name today nowIso (keyOf source))).2 := by
  intro source today nowIso freshId s db f uid prof hf hu hp
  obtain ⟨slot, hfind, hkey, _⟩ := find_slot_key source
  refine ⟨?_, ?_, ?_⟩
  · simp only [handleUploadSource, hf, hu, hp, hfind, hkey]
    exact uploadedFiles_set_get_self _ _ _
  · intro t ht
    simp only [handleUploadSource, hf, hu, hp, hfind, hkey]
    exact uploadedFiles_set_get_other _ _ _ _ ht
  · simp [handleUploadSource, hf, hu, hp, hfind, hkey]

/-- Claim C10 witness: the theorem evaluated at a concrete successful
upload. -/
theorem claim_C10_witness :
    (handleUploadSource .DoorDash "2026-10-12" "t1" 21 none none
        (handleFileSelect .DoorDash (some "dd.csv") baseState) ⟨[]⟩).state.uploadedFiles.get
        .DoorDash = none ∧
    (∀ t, t ≠ UploadSource.DoorDash →
      (handleUploadSource .DoorDash "2026-10-12" "t1" 21 none none
          (handleFileSelect .DoorDash (some "dd.csv") baseState) ⟨[]⟩).state.uploadedFiles.get
          t = (handleFileSelect .DoorDash (some "dd.csv") baseState).uploadedFiles.get t) ∧
    (handleUploadSource .DoorDash "2026-10-12" "t1" 21 none none
        (handleFileSelect .DoorDash (some "dd.csv") baseState) ⟨[]⟩).state.dailyUpload =
      some (dbUpsert ⟨[]⟩ 21
        (mkUploadPayload "userA" profAlice.restaurant_name "2026-10-12" "t1"
          (keyOf .DoorDash))).2 :=
  claim_C10_clear_file .DoorDash "2026-10-12" "t1" 21
    (handleFileSelect .DoorDash (some "dd.csv") baseState) ⟨[]⟩ "dd.csv" "userA" profAlice
    rfl rfl rfl

-- Claim C8

/-- Claim C8: the initializing flag starts true; while it is true the render
function shows only the neutral loading indicator and in particular never the
auth stage; every outcome of the session query (found, absent, failed) clears
the flag through the finally block of init; and no other operation of the
component ever changes the flag, so the auth stage cannot render before
initialization completes. -/
theorem claim_C8_no_flicker :
    initialHomeState.initializing = true ∧
    (∀ s : HomeState, s.initializing = true →
        render s = .loadingIndicator ∧ ∀ st : Stage, render s ≠ .stageView st) ∧
    (∀ res profileResult todayRead s,
        (init res profileResult todayRead s).initializing = false) ∧
    (∀ source today nowIso freshId sErr uErr s db,
        (handleUploadSource source today nowIso freshId sErr uErr s db).state.initializing =
          s.initializing) ∧
    (∀ uErr s db, (handleStartProcessing uErr s db).state.initializing = s.initializing) ∧
    (∀ rid s db, (completionTimerFire rid s db).state.initializing = s.initializing) ∧
    (∀ s, (handleLogout s).initializing = s.initializing) ∧
    (∀ tr s, (loadTodayUpload tr s).initializing = s.initializing) ∧
    (∀ pr tr s, (loadProfile pr tr s).initializing = s.initializing) ∧
    (∀ e nowIso tr s, (handleOnboarding e nowIso tr s).initializing = s.initializing) ∧
    (∀ src f s, (handleFileSelect src f s).initializing = s.initializing) ∧
    (∀ uid pr tr s, (handleAuthLoginSuccess uid pr tr s).initializing = s.initializing) := by
  have hload : ∀ tr s, (loadTodayUpload tr s).initializing = s.initializing := by
    intro tr s
    unfold loadTodayUpload
    repeat' split
    all_goals rfl
  have hprof : ∀ pr tr s, (loadProfile pr tr s).initializing = s.initializing := by
    intro pr tr s
    unfold loadProfile
    repeat' split
    · rfl
    · rfl
    · rw [hload]
  refine ⟨rfl, ?_, ?_, ?_, ?_, ?_, fun s => rfl, hload, hprof, ?_, fun src f s => rfl, ?_⟩
  · intro s h
    refine ⟨by simp [render, h], ?_⟩
    intro st
    simp [render, h]
  · intro res profileResult todayRead s
    cases res <;> rfl
  · intro source today nowIso freshId sErr uErr s db
    unfold handleUploadSource
    repeat' split
    all_goals rfl
  · intro uErr s db
    unfold handleStartProcessing
    repeat' split
    all_goals rfl
  · intro rid s db
    rfl
  · intro e nowIso tr s
    unfold handleOnboarding
    repeat' split
    · rfl
    · rfl
    · rfl
    · rw [hload]
  · intro uid pr tr s
    unfold handleAuthLoginSuccess
    rw [hprof]

/-- Claim C8 witness: the initial state renders the loading indicator. -/
theorem claim_C8_witness :
    render initialHomeState = .loadingIndicator ∧
    render initialHomeState ≠ .stageView .auth ∧
    (init .absent (.ok none) (.ok none) initialHomeState).initializing = false :=
  ⟨(claim_C8_no_flicker.2.1 initialHomeState rfl).1,
   (claim_C8_no_flicker.2.1 initialHomeState rfl).2 .auth,
   claim_C8_no_flicker.2.2.1 .absent (.ok none) (.ok none) initialHomeState⟩

-- Claim C5: lemmas about the upsert-on-conflict semantics.

theorem conflictMatch_applyPatch (p : UpsertPayload) (r : DailyUpload) :
    conflictMatch p (applyPatch p r) = true := by
  simp [conflictMatch, matchesKey, applyPatch]

theorem conflictMatch_insertRow (p : UpsertPayload) (fid : Nat) :
    conflictMatch p (insertRow fid p) = true := by
  simp [conflictMatch, matchesKey, insertRow]

theorem applyPatch_idem (p : UpsertPayload) (r : DailyUpload) :
    applyPatch p (applyPatch p r) = applyPatch p r := by
  rcases p with ⟨pu, pr, pd, f1, f2, f3, f4, pt⟩
  cases f1 <;> cases f2 <;> cases f3 <;> cases f4 <;> rfl

theorem applyPatch_insertRow (p : UpsertPayload) (fid : Nat) :
    applyPatch p (insertRow fid p) = insertRow fid p := by
  rcases p with ⟨pu, pr, pd, f1, f2, f3, f4, pt⟩
  cases f1 <;> cases f2 <;> cases f3 <;> cases f4 <;> rfl

theorem conflictMatch_patchIfMatch (p : UpsertPayload) (x : DailyUpload) :
    conflictMatch p (patchIfMatch p x) = conflictMatch p x := by
  unfold patchIfMatch
  by_cases h : conflictMatch p x = true
  · rw [if_pos h, conflictMatch_applyPatch, h]
  · rw [if_neg h]

theorem patchIfMatch_idem (p : UpsertPayload) (x : DailyUpload) :
    patchIfMatch p (patchIfMatch p x) = patchIfMatch p x := by
  unfold patchIfMatch
  by_cases h : conflictMatch p x = true
  · rw [if_pos h, if_pos (conflictMatch_applyPatch p x), applyPatch_idem]
  · rw [if_neg h, if_neg h]

theorem map_patchIfMatch_of_no_match (p : UpsertPayload) (l : List DailyUpload)
    (h : ∀ x ∈ l, ¬ conflictMatch p x = true) :
    l.map (patchIfMatch p) = l := by
  induction l with
  | nil => rfl
  | cons a as ih =>
    simp only [List.map_cons]
    rw [show patchIfMatch p a = a from
      if_neg (h a (List.mem_cons_self a as))]
    rw [ih (fun x hx => h x (List.mem_cons_of_mem a hx))]

theorem find?_append_singleton {α : Type} (q : α → Bool) (l : List α) (x : α)
    (h : l.find? q = none) (hx : q x = true) :
    (l ++ [x]).find? q = some x := by
  induction l with
  | nil => simp [List.find?, hx]
  | cons a as ih =>
    have ha : ¬ q a = true := List.find?_eq_none.mp h a (List.mem_cons_self a as)
    have htail : as.find? q = none := by
      rw [List.find?_eq_none]
      exact fun y hy => List.find?_eq_none.mp h y (List.mem_cons_of_mem a hy)
    simp only [List.cons_append, List.find?_cons_of_neg _ ha]
    exact ih htail

theorem length_filter_map_of_pred {α : Type} (g : α → α) (q : α → Bool)
    (h : ∀ x, q (g x) = q x) :
    ∀ l : List α, ((l.map g).filter q).length = (l.filter q).length := by
  intro l
  induction l with
  | nil => rfl
  | cons a as ih =>
    simp only [List.map_cons, List.filter_cons, h a]
    by_cases ha : q a = true
    · rw [if_pos ha, if_pos ha]
      simp only [List.length_cons, ih]
    · rw [if_neg ha, if_neg ha]
      exact ih

theorem countMatching_eq (db : Db) (p : UpsertPayload) :
    countMatching db p.restaurant_name p.upload_date =
      (db.daily_uploads.filter (fun r => conflictMatch p r)).length := rfl

theorem dbUpsert_count (db : Db) (fid : Nat) (p : UpsertPayload)
    (h : countMatching db p.restaurant_name p.upload_date ≤ 1) :
    countMatching (dbUpsert db fid p).1 p.restaurant_name p.upload_date = 1 := by
  rw [countMatching_eq] at *
  unfold dbUpsert
  cases hfind : db.daily_uploads.find? (fun r => conflictMatch p r) with
  | none =>
    have hall : ∀ x ∈ db.daily_uploads, ¬ conflictMatch p x = true :=
      List.find?_eq_none.mp hfind
    dsimp only
    rw [List.filter_append, List.filter_eq_nil_iff.mpr hall]
    simp [List.filter, conflictMatch_insertRow p fid]
  | some r =>
    dsimp only
    have hlen : ((db.daily_uploads.map (patchIfMatch p)).filter
        (fun r => conflictMatch p r)).length =
        (db.daily_uploads.filter (fun r => conflictMatch p r)).length :=
      length_filter_map_of_pred (patchIfMatch p) (fun r => conflictMatch p r)
        (conflictMatch_patchIfMatch p) db.daily_uploads
    rw [hlen]
    have hmem : r ∈ db.daily_uploads.filter (fun r => conflictMatch p r) :=
      List.mem_filter.mpr ⟨List.mem_of_find?_eq_some hfind, List.find?_some hfind⟩
    have hpos : 0 < (db.daily_uploads.filter (fun r => conflictMatch p r)).length :=
      List.length_pos_of_mem hmem
    omega

theorem dbUpsert_twice (db : Db) (fid1 fid2 : Nat) (p : UpsertPayload) :
    dbUpsert (dbUpsert db fid1 p).1 fid2 p = dbUpsert db fid1 p := by
  unfold dbUpsert
  cases hfind : db.daily_uploads.find? (fun r => conflictMatch p r) with
  | none =>
    have hall : ∀ x ∈ db.daily_uploads, ¬ conflictMatch p x = true :=
      List.find?_eq_none.mp hfind
    dsimp only
    rw [find?_append_singleton _ _ _ hfind (conflictMatch_insertRow p fid1)]
    dsimp only
    congr 1
    rw [List.map_append, map_patchIfMatch_of_no_match p _ hall]
    simp only [List.map_cons, List.map_nil]
    rw [show patchIfMatch p (insertRow fid1 p) = insertRow fid1 p from by
      unfold patchIfMatch
      rw [if_pos (conflictMatch_insertRow p fid1), applyPatch_insertRow]]
    exact applyPatch_insertRow p fid1
  | some r =>
    have hr : conflictMatch p r = true := List.find?_some hfind
    dsimp only
    have hfind2 : (db.daily_uploads.map (patchIfMatch p)).find?
        (fun x => conflictMatch p x) = some (patchIfMatch p r) := by
      rw [List.find?_map]
      rw [show ((fun x => conflictMatch p x) ∘ patchIfMatch p) = fun x => conflictMatch p x from
        funext (conflictMatch_patchIfMatch p)]
      rw [hfind]
      rfl
    rw [hfind2]
    dsimp only
    congr 1
    · congr 1
      rw [List.map_map]
      exact List.map_congr_left (fun x _ => patchIfMatch_idem p x)
    · rw [show patchIfMatch p r = applyPatch p r from if_pos hr, applyPatch_idem]

theorem getFlag_applyPatch_self (uid rest today nowIso : String) (k : ReadyKey)
    (r : DailyUpload) :
    (applyPatch (mkUploadPayload uid rest today nowIso k) r).getFlag k = true := by
  cases k <;> rfl

theorem getFlag_insertRow_self (fid : Nat) (uid rest today nowIso : String) (k : ReadyKey) :
    (insertRow fid (mkUploadPayload uid rest today nowIso k)).getFlag k = true := by
  cases k <;> rfl

theorem dbUpsert_flag (db : Db) (fid : Nat) (uid rest today nowIso : String) (k : ReadyKey) :
    ∀ r ∈ (dbUpsert db fid (mkUploadPayload uid rest today nowIso k)).1.daily_uploads,
      conflictMatch (mkUploadPayload uid rest today nowIso k) r = true →
      r.getFlag k = true := by
  intro r hr hm
  unfold dbUpsert at hr
  cases hfind : db.daily_uploads.find?
      (fun x => conflictMatch (mkUploadPayload uid rest today nowIso k) x) with
  | none =>
    rw [hfind] at hr
    dsimp only at hr
    rcases List.mem_append.mp hr with h | h
    · exact absurd hm (List.find?_eq_none.mp hfind r h)
    · rw [show r = insertRow fid (mkUploadPayload uid rest today nowIso k) from by
        simpa using h]
      exact getFlag_insertRow_self fid uid rest today nowIso k
  | some y =>
    rw [hfind] at hr
    dsimp only at hr
    rcases List.mem_map.mp hr with ⟨x, hx, hgx⟩
    by_cases hc : conflictMatch (mkUploadPayload uid rest today nowIso k) x = true
    · rw [← hgx, show patchIfMatch (mkUploadPayload uid rest today nowIso k) x =
          applyPatch (mkUploadPayload uid rest today nowIso k) x from if_pos hc]
      exact getFlag_applyPatch_self uid rest today nowIso k x
    · rw [← hgx] at hm
      rw [conflictMatch_patchIfMatch] at hm
      exact absurd hm hc

/-- Success-path evaluation of handleUploadSource, shared by the idempotence
argument. -/
theorem handleUploadSource_success (source : UploadSource) (today nowIso : String)
    (fid : Nat) (s : HomeState) (db : Db) (f uid : String) (prof : Profile)
    (slot : UploadSlot)
    (hf : s.uploadedFiles.get source = some f) (hu : s.userId = some uid)
    (hp : s.profile = some prof)
    (hfind : UPLOAD_SLOTS.find? (fun sl => sl.source == source) = some slot) :
    handleUploadSource source today nowIso fid none none s db =
      ⟨{ s with
          loading := false
          error := none
          dailyUpload := some (dbUpsert db fid
            (mkUploadPayload uid prof.restaurant_name today nowIso slot.key)).2
          uploadedFiles := s.uploadedFiles.set source none },
        (dbUpsert db fid (mkUploadPayload uid prof.restaurant_name today nowIso slot.key)).1,
        [.storageUpload (pathFor prof.restaurant_name today source),
         .upsertDaily (mkUploadPayload uid prof.restaurant_name today nowIso slot.key)]⟩ := by
  simp [handleUploadSource, hf, hu, hp, hfind]

/-- Two successive successful uploads of the same source the same day: the
second call (with a freshly selected file) is evaluated on the state and
store left by the first. -/
def uploadTwice (source : UploadSource) (today nowIso : String) (fid1 fid2 : Nat)
    (f2 : String) (s : HomeState) (db : Db) : UploadResult :=
  let once := handleUploadSource source today nowIso fid1 none none s db
  handleUploadSource source today nowIso fid2 none none
    (handleFileSelect source (some f2) once.state) once.db

/-- Claim C5: per source and day the upload operation is idempotent.  If the
store holds at most one record for (restaurant, today) — which the conflict
key restaurant_name,upload_date guarantees — then uploading the same source
twice in sequence (a file selected each time) leaves the store exactly as
after one upload: exactly one record for the pair, with that source's ready
flag true, and the same local record. -/
theorem claim_C5_upload_idempotent :
    ∀ (source : UploadSource) (today nowIso : String) (fid1 fid2 : Nat)
      (f1 f2 uid : String) (s : HomeState) (db : Db) (prof : Profile),
      s.uploadedFiles.get source = some f1 →
      s.userId = some uid → s.profile = some prof →
      countMatching db prof.restaurant_name today ≤ 1 →
      (uploadTwice source today nowIso fid1 fid2 f2 s db).db =
        (handleUploadSource source today nowIso fid1 none none s db).db ∧
      countMatching (uploadTwice source today nowIso fid1 fid2 f2 s db).db
        prof.restaurant_name today = 1 ∧
      (∀ r ∈ (uploadTwice source today nowIso fid1 fid2 f2 s db).db.daily_uploads,
        matchesKey prof.restaurant_name today r = true →
        r.getFlag (keyOf source) = true) ∧
      (uploadTwice source today nowIso fid1 fid2 f2 s db).state.dailyUpload =
        (handleUploadSource source today nowIso fid1 none none s db).state.dailyUpload := by
  intro source today nowIso fid1 fid2 f1 f2 uid s db prof hf hu hp hcount
  obtain ⟨slot, hfind, hkey, _⟩ := find_slot_key source
  have h1 := handleUploadSource_success source today nowIso fid1 s db f1 uid prof slot
    hf hu hp hfind
  have h2 := handleUploadSource_success source today nowIso fid2
    (handleFileSelect source (some f2)
      (handleUploadSource source today nowIso fid1 none none s db).state)
    (handleUploadSource source today nowIso fid1 none none s db).db f2 uid prof slot
    (by rw [h1]; exact uploadedFiles_set_get_self _ _ _)
    (by rw [h1]; exact hu) (by rw [h1]; exact hp) hfind
  have htwice : uploadTwice source today nowIso fid1 fid2 f2 s db =
      handleUploadSource source today nowIso fid2 none none
        (handleFileSelect source (some f2)
          (handleUploadSource source today nowIso fid1 none none s db).state)
        (handleUploadSource source today nowIso fid1 none none s db).db := rfl
  rw [htwice, h2, h1]
  refine ⟨?_, ?_, ?_, ?_⟩
  · exact congrArg Prod.fst (dbUpsert_twice db fid1 fid2 _)
  · rw [show ((dbUpsert (dbUpsert db fid1
        (mkUploadPayload uid prof.restaurant_name today nowIso slot.key)).1 fid2
        (mkUploadPayload uid prof.restaurant_name today nowIso slot.key)).1 : Db) =
        (dbUpsert db fid1 (mkUploadPayload uid prof.restaurant_name today nowIso slot.key)).1
      from congrArg Prod.fst (dbUpsert_twice db fid1 fid2 _)]
    exact dbUpsert_count db fid1 _ hcount
  · intro r hr hm
    rw [congrArg Prod.fst (dbUpsert_twice db fid1 fid2
      (mkUploadPayload uid prof.restaurant_name today nowIso slot.key))] at hr
    rw [← hkey]
    exact dbUpsert_flag db fid1 uid prof.restaurant_name today nowIso slot.key r hr hm
  · exact congrArg (fun x => some (Prod.snd x)) (dbUpsert_twice db fid1 fid2 _)

/-- Claim C5 witness: the theorem evaluated at a concrete double DoorDash
upload starting from an empty store. -/
theorem claim_C5_witness :
    (uploadTwice .DoorDash "2026-10-12" "t1" 21 22 "dd2.csv"
        (handleFileSelect .DoorDash (some "dd.csv") baseState) ⟨[]⟩).db =
      (handleUploadSource .DoorDash "2026-10-12" "t1" 21 none none
        (handleFileSelect .DoorDash (some "dd.csv") baseState) ⟨[]⟩).db ∧
    countMatching (uploadTwice .DoorDash "2026-10-12" "t1" 21 22 "dd2.csv"
        (handleFileSelect .DoorDash (some "dd.csv") baseState) ⟨[]⟩).db
      profAlice.restaurant_name "2026-10-12" = 1 ∧
    (∀ r ∈ (uploadTwice .DoorDash "2026-10-12" "t1" 21 22 "dd2.csv"
        (handleFileSelect .DoorDash (some "dd.csv") baseState) ⟨[]⟩).db.daily_uploads,
      matchesKey profAlice.restaurant_name "2026-10-12" r = true →
      r.getFlag (keyOf .DoorDash) = true) ∧
    (uploadTwice .DoorDash "2026-10-12" "t1" 21 22 "dd2.csv"
        (handleFileSelect .DoorDash (some "dd.csv") baseState) ⟨[]⟩).state.dailyUpload =
      (handleUploadSource .DoorDash "2026-10-12" "t1" 21 none none
        (handleFileSelect .DoorDash (some "dd.csv") baseState) ⟨[]⟩).state.dailyUpload :=
  claim_C5_upload_idempotent .DoorDash "2026-10-12" "t1" 21 22 "dd.csv" "dd2.csv" "userA"
    (handleFileSelect .DoorDash (some "dd.csv") baseState) ⟨[]⟩ profAlice
    rfl rfl rfl (by decide)

end Synlitics
